import Mathlib

/-!
# Verification of the dpp-mysql query execution and serialization engine

A shallow embedding of the `db` namespace of `src/database.cpp` /
`src/database.h` (dpp-mysql).  The MySQL client library ("the driver") is an
external collaborator; it is modelled as a structure of oracle functions
(`Driver`) giving the outcome of each driver round-trip, and the executor
`db_query`, the result-cache wrapper `db_query_cached`, the async-queue
consumer step `consume_entry`, and the transaction coordinator
(`db_transaction`, `transaction_function_run`) are translated statement by
statement from the source.  Thread interleavings relevant to the
transaction gate are modelled by the transition system `sys_step`.
-/

namespace DppMysql

/-- `db::parameter_type` (database.h): a closed variant over
`float, std::string, uint64_t, int64_t, bool, int32_t, uint32_t, double`.
The `float`/`double` payloads are modelled by their bit patterns as `Nat`;
no claim exercises floating-point arithmetic, only value equality of
stored parameters (bit equality, which agrees with C++ `==` except at
`-0.0`/`NaN`, neither of which any claim touches). -/
inductive parameter_type
  | p_float (bits : Nat)
  | p_string (s : String)
  | p_uint64 (v : Nat)
  | p_int64 (v : Int)
  | p_bool (b : Bool)
  | p_int32 (v : Int)
  | p_uint32 (v : Nat)
  | p_double (bits : Nat)
deriving DecidableEq, Repr

/-- `db::paramlist` (database.h). -/
abbrev paramlist := List parameter_type

/-- `db::row` (database.h): `std::map<std::string, std::string>`.
Modelled as an association list in driver field order; per §3 of the spec
field names are unique within one result, and no claim depends on the
key-sorted iteration order of `std::map`. -/
abbrev row := List (String × String)

/-- `db::resultset` (database.h lines 44-136): rows, error message
(empty string signifies success) and affected-row count. -/
structure resultset where
  rows : List row
  error : String
  affected_rows : Nat
deriving DecidableEq, Repr

/-- `resultset rv;` — value initialisation as in database.cpp line 421. -/
def empty_resultset : resultset := ⟨[], "", 0⟩

/-- `resultset::ok()` (database.h line 65). -/
def resultset.ok (r : resultset) : Bool := r.error = ""

/-- One entry of the prepared-statement cache, `db::cached_query`
(database.cpp lines 45-70).  The statement handle `st`, the bind arrays
and the buffers are driver-side resources; the model keeps the
`expects_results` flag and the placeholder count that
`mysql_stmt_param_count` reports for the cached handle. -/
structure cached_query where
  expects_results : Bool
  param_count : Nat
deriving DecidableEq, Repr

/-- Key of the result-set cache: `db::cached_query_results`
(database.cpp lines 119-123) under `cached_query_equal`
(lines 172-179), which compares `format` and `parameters` only
(the callback member does not participate in equality). -/
structure res_key where
  format : String
  parameters : paramlist
deriving DecidableEq, Repr

/-- `db::cached_query_result_set` (database.cpp lines 128-131): a stored
result set plus an absolute expiry timestamp.  The `double` timestamps of
`dpp::utility::time_f()` are modelled as rationals. -/
structure cached_query_result_set where
  results : resultset
  expiry : Rat
deriving DecidableEq

/-- A record of one driver round-trip issued by the executor. -/
inductive drv_event
  | prepare (sql : String)
  | execute (sql : String)
deriving DecidableEq, Repr

/-- The process-wide mutable state of the `db` namespace
(database.cpp lines 75-184): the last-error string, the query counter,
the affected-row count, the prepared-statement cache `cached_queries`
and the result-set cache `cached_query_res`.  `trace` records the
driver round-trips issued so far (prepare/execute calls on the wire). -/
structure DBState where
  last_error : String
  query_total : Nat
  rows_affected : Nat
  cached_queries : List (String × cached_query)
  cached_query_res : List (res_key × cached_query_result_set)
  trace : List drv_event
deriving DecidableEq

/-- A fresh process state: empty caches, no error. -/
def DBState.fresh : DBState := ⟨"", 0, 0, [], [], []⟩

/-- Association-list lookup, modelling `std::map::find` /
`std::unordered_map::find`. -/
def assoc_find {α β : Type} [DecidableEq α] : List (α × β) → α → Option β
  | [], _ => none
  | (k, v) :: rest, key => if k = key then some v else assoc_find rest key

/-- Association-list erase, modelling `std::unordered_map::erase`. -/
def assoc_erase {α β : Type} [DecidableEq α] (l : List (α × β)) (key : α) :
    List (α × β) :=
  l.filter (fun kv => kv.1 ≠ key)

/-- The outcome of each driver call the executor makes, per SQL text and
bound parameter list (§6 of the spec: prepare, bind, execute, metadata,
fetch).  `prepare` yields the driver error text or the placeholder count;
`stmt_execute` yields the driver error text or the affected-row count;
`fetches` is the sequence of `mysql_stmt_fetch` outcomes before
`MYSQL_NO_DATA`, each either the row's cells (`none` = SQL NULL) or an
error message. -/
structure Driver where
  ping_ok : Bool
  reconnect_ok : Bool
  prepare : String → Except String Nat
  bind_param_ok : String → paramlist → Bool
  bind_param_error : String → String
  has_result_metadata : String → Bool
  metadata_error : String → String
  field_names : String → List String
  stmt_execute : String → paramlist → Except String Nat
  bind_result_ok : String → Bool
  bind_result_error : String → String
  fetches : String → paramlist → List (Except String (List (Option String)))

/-- `dpp::lowercase`: per-character ASCII `tolower`. -/
def cxx_tolower (c : Char) : Char :=
  if 'A' ≤ c ∧ c ≤ 'Z' then Char.ofNat (c.toNat + 32) else c

/-- Whitespace as trimmed by `dpp::trim`. -/
def is_ws (c : Char) : Bool := c = ' ' ∨ c = '\t' ∨ c = '\n' ∨ c = '\r'

/-- `dpp::trim`: strip leading and trailing whitespace. -/
def trim_chars (cs : List Char) : List Char :=
  ((cs.dropWhile is_ws).reverse.dropWhile is_ws).reverse

/-- Lines 486-487: determine whether a query expects results from its
first keyword: `tokenize(trim(lowercase(format)), " ")` and compare the
first token (`q[0]`, the characters before the first `' '` separator;
for an empty tokenisation `q.size() > 0` fails and the flag is `false`,
which coincides with the empty first token matching no keyword) against
`select`, `show`, `describe`, `explain`. -/
def expects_results_of (format : String) : Bool :=
  let q0 := (trim_chars (format.data.map cxx_tolower)).takeWhile (fun c => c ≠ ' ')
  q0 = "select".data ∨ q0 = "show".data ∨ q0 = "describe".data ∨ q0 = "explain".data

/-- `db::log_error` (database.cpp lines 373-384).  With a non-empty query
text the last-error global becomes `"<error> (query: <format>)"`; if the
error text is exactly the lost-connection message the code calls
`db::close()` followed by `db::init(*creator)`, which closes every cached
prepared statement and clears the statement cache (the reconnect itself
is a driver-side effect).  With an empty query text the error is stored
verbatim. -/
def log_error (st : DBState) (format error : String) : DBState :=
  if format ≠ "" then
    let st' := { st with last_error := error ++ " (query: " ++ format ++ ")" }
    if error = "Lost connection to MySQL server during query" then
      { st' with cached_queries := [] }
    else st'
  else
    { st with last_error := error }

/-- Lines 594-602: build one `db::row` from the output bind buffers — for
each field, the column name and the buffer text, with a set NULL flag
mapped to the empty string. -/
def build_row (fields : List String) (cells : List (Option String)) : row :=
  (List.zip fields cells).map (fun nc => (nc.1, nc.2.getD ""))

/-- The fetch loop of lines 582-605: fetch rows until `MYSQL_NO_DATA`
(end of the outcome list) or the first fetch error, appending one row per
successful fetch when the result has at least one field.  Returns the
accumulated rows and the first error, if any. -/
def fetch_loop (fields : List String) :
    List (Except String (List (Option String))) → List row × Option String
  | [] => ([], none)
  | (Except.error e) :: _ => ([], some e)
  | (Except.ok cells) :: rest =>
      let r := fetch_loop fields rest
      (if fields.length ≠ 0 then build_row fields cells :: r.1 else r.1, r.2)

/-- The bind-and-execute stage of `db::query` (database.cpp lines
494-616), entered with the cached (or freshly prepared) statement `cc`:

* lines 494-524: when the parameter list is non-empty, serialise and bind
  it; a bind failure logs the driver error and returns the empty result;
* lines 528-537: a statement that expects no rows is executed; success
  stores the affected-row count in the global `rows_affected`, failure
  logs the driver error — in neither case is the returned `resultset`'s
  `error` or `affected_rows` field written;
* lines 538-614: a statement that expects rows fetches its metadata
  (failure at lines 611-612 logs), binds output buffers (failure at lines
  569-576 logs and returns), executes (note: a failing
  `mysql_stmt_execute` at line 578 has no `else` branch — nothing is
  logged) and runs the fetch loop; a mid-fetch error is logged and stops
  the loop, the rows fetched so far remain in the returned result. -/
def db_query_exec (drv : Driver) (st : DBState) (format : String)
    (parameters : paramlist) (cc : cached_query) : DBState × resultset :=
  if parameters.length ≠ 0 ∧ ¬ drv.bind_param_ok format parameters then
    (log_error st format (drv.bind_param_error format), empty_resultset)
  else if ¬ cc.expects_results then
    let st₁ := { st with trace := st.trace ++ [drv_event.execute format] }
    match drv.stmt_execute format parameters with
    | Except.error e => (log_error st₁ format e, empty_resultset)
    | Except.ok affected => ({ st₁ with rows_affected := affected }, empty_resultset)
  else if ¬ drv.has_result_metadata format then
    (log_error st format (drv.metadata_error format), empty_resultset)
  else if ¬ drv.bind_result_ok format then
    (log_error st format (drv.bind_result_error format), empty_resultset)
  else
    let st₁ := { st with trace := st.trace ++ [drv_event.execute format] }
    match drv.stmt_execute format parameters with
    | Except.error _ => (st₁, empty_resultset)
    | Except.ok _ =>
        let fl := fetch_loop (drv.field_names format) (drv.fetches format parameters)
        match fl.2 with
        | some e => (log_error st₁ format e, { empty_resultset with rows := fl.1 })
        | none => (st₁, { empty_resultset with rows := fl.1 })

/-- `db::query(format, parameters)` (database.cpp lines 406-617), the
sequential executor body past the transaction gate (the gate at lines
412-414 and the `db_mutex` guard are interleaving concerns, modelled by
`sys_step` below):

* lines 423-436: `mysql_ping`; on a dead connection close every cached
  statement, clear the statement cache and reconnect; a failed reconnect
  returns the empty result set (whose `error` field stays empty);
* lines 441-447: clear the last-error and affected-rows globals,
  increment the query counter;
* lines 453-492: look the SQL text up in the prepared-statement cache;
  on a hit the cached entry is used directly — no parameter-count check
  happens on this path; on a miss, prepare (failure logs and returns),
  check the supplied parameter count against `mysql_stmt_param_count`
  (mismatch logs `"Incorrect number of parameters: ..."` and returns
  without caching), compute the expects-results flag and insert into the
  cache;
* then the bind-and-execute stage `db_query_exec`. -/
def db_query (drv : Driver) (st0 : DBState) (format : String)
    (parameters : paramlist) : DBState × resultset :=
  let st1 := if drv.ping_ok then st0 else { st0 with cached_queries := [] }
  if ¬ drv.ping_ok ∧ ¬ drv.reconnect_ok then
    (st1, empty_resultset)
  else
    let st2 := { st1 with last_error := "", rows_affected := 0,
                          query_total := st1.query_total + 1 }
    match assoc_find st2.cached_queries format with
    | some cc => db_query_exec drv st2 format parameters cc
    | none =>
        let st3 := { st2 with trace := st2.trace ++ [drv_event.prepare format] }
        match drv.prepare format with
        | Except.error e => (log_error st3 format e, empty_resultset)
        | Except.ok expected_param_count =>
            if parameters.length ≠ expected_param_count then
              (log_error st3 format
                ("Incorrect number of parameters: " ++ format ++ " (" ++
                  toString parameters.length ++ " vs " ++
                  toString expected_param_count ++ ")"),
               empty_resultset)
            else
              let cc : cached_query :=
                ⟨expects_results_of format, expected_param_count⟩
              let st4 := { st3 with
                cached_queries := st3.cached_queries ++ [(format, cc)] }
              db_query_exec drv st4 format parameters cc

/-- `db::query(format, parameters, lifetime)` (database.cpp lines
391-404), the time-bounded result-cache wrapper: look up by
`(format, parameters)` value equality; a hit with `now < expiry` returns
the stored result set with no driver access; otherwise the stale entry is
erased, the executor runs, and the fresh result is stored with expiry
`now + lifetime`.  `now` is sampled once at entry
(`dpp::utility::time_f()`), passed here as a parameter. -/
def db_query_cached (drv : Driver) (st : DBState) (now : Rat)
    (format : String) (parameters : paramlist) (lifetime : Rat) :
    DBState × resultset :=
  let r : res_key := ⟨format, parameters⟩
  match assoc_find st.cached_query_res r with
  | some entry =>
      if now < entry.expiry then (st, entry.results)
      else
        let st' := { st with cached_query_res := assoc_erase st.cached_query_res r }
        let qr := db_query drv st' format parameters
        ({ qr.1 with cached_query_res :=
            qr.1.cached_query_res ++ [(r, ⟨qr.2, now + lifetime⟩)] }, qr.2)
  | none =>
      let qr := db_query drv st format parameters
      ({ qr.1 with cached_query_res :=
          qr.1.cached_query_res ++ [(r, ⟨qr.2, now + lifetime⟩)] }, qr.2)

/-- One entry of the async work queue, `db::cached_query_results`
(database.cpp lines 119-123) as enqueued by `query_callback`
(lines 225-231): SQL text, parameters and the completion callback.
`has_callback` records whether the stored `std::function` is non-empty
(the `if (qr.callback)` test at line 263). -/
structure queue_entry where
  format : String
  parameters : paramlist
  has_callback : Bool
deriving DecidableEq, Repr

/-- The query-dispatch step of the consumer loop body (database.cpp lines
261-266): after dequeuing `qr`, **only when the SQL text is non-empty**
the query runs and, if a callback was supplied, it is invoked with the
results.  Returns `(query performed, callback invoked)`. -/
def consume_entry (e : queue_entry) : Bool × Bool :=
  if e.format ≠ "" then (true, e.has_callback) else (false, false)

/-- The outcome of the user closure handed to `db::transaction`: the
`std::function<bool()>` may be empty (`none`), return a commit decision
(`some (Except.ok b)`), or throw (`some (Except.error ())`). -/
abbrev tx_closure := Option (Except Unit Bool)

instance : DecidableEq (Except Unit Bool) := fun a b =>
  match a, b with
  | Except.ok x, Except.ok y =>
      if h : x = y then isTrue (by rw [h]) else isFalse (by simp [h])
  | Except.error x, Except.error y =>
      isTrue (by cases x; cases y; rfl)
  | Except.ok _, Except.error _ => isFalse (by simp)
  | Except.error _, Except.ok _ => isFalse (by simp)

/-- Statements the transaction wrapper issues on the wire through
`raw_query` (database.cpp lines 301-311). -/
inductive tx_stmt
  | start
  | commit
  | rollback
deriving DecidableEq, Repr

/-- The `try` block of the wrapper thunk stored by `db::transaction`
(database.cpp lines 324-335): run `START TRANSACTION`, default
`should_commit` to `false`, run the closure if one was supplied (a throw
escapes to the `catch`), then issue `COMMIT` when `should_commit` and
`ROLLBACK` otherwise.  Returns the list of issued statements, or the
statements issued before a throw escaped. -/
def tx_try_body (closure : tx_closure) : Except (List tx_stmt) (List tx_stmt) :=
  let opened := [tx_stmt.start]
  match closure with
  | none => Except.ok (opened ++ [tx_stmt.rollback])
  | some (Except.error _) => Except.error opened
  | some (Except.ok should_commit) =>
      if should_commit then Except.ok (opened ++ [tx_stmt.commit])
      else Except.ok (opened ++ [tx_stmt.rollback])

/-- The full wrapper thunk `transaction_function` (database.cpp lines
323-343): the `try` block, a `catch (...)` that issues `ROLLBACK`
(line 337), and finally `transaction_in_progress = false` (line 342).
Returns the statements issued on the wire and the value of the pending
flag after the thunk. -/
def transaction_function_run (closure : tx_closure) : List tx_stmt × Bool :=
  match tx_try_body closure with
  | Except.ok stmts => (stmts, false)
  | Except.error pre_throw_stmts => (pre_throw_stmts ++ [tx_stmt.rollback], false)

/-- The coordinator state touched by `db::transaction` (database.cpp
lines 103-104, 134): the pending flag `transaction_in_progress`, the
stored thunk `transaction_function` (modelled by the closure it wraps)
and the async work queue. -/
structure coord_state where
  transaction_in_progress : Bool
  transaction_function : Option tx_closure
  sql_query_queue : List queue_entry
deriving DecidableEq

/-- `db::transaction(closure)` (database.cpp lines 313-353): if a
transaction is already pending, throw
`std::runtime_error("Transaction already in progress")` — modelled as
returning the exception message with the state untouched (the throw at
line 316 precedes every mutation).  Otherwise store the wrapper thunk,
set the pending flag and enqueue the no-op sentinel
`query_callback("", {}, [](auto){})` — an entry with empty SQL text and a
(non-empty, no-op) callback. -/
def db_transaction (st : coord_state) (closure : tx_closure) :
    coord_state × Option String :=
  if st.transaction_in_progress then
    (st, some "Transaction already in progress")
  else
    ({ transaction_in_progress := true,
       transaction_function := some closure,
       sql_query_queue := st.sql_query_queue ++ [⟨"", [], true⟩] }, none)

/-! ## Interleaving model of the transaction gate

The thread-facing behaviour of lines 412-414 (the sleep-poll gate at the
top of `db::query`), lines 275-280 (the consumer loop's transaction
pickup) and lines 315-352 (`db::transaction` arming the pending flag) is
modelled as a transition system over thread-indexed state.  Thread `0` is
the single detached consumer thread started by `db::init`
(lines 246-282); only its loop body ever assigns the thread-local
`holds_transaction_lock`. -/

/-- Where a thread stands inside `db::query`: not in the executor, at the
sleep-poll gate of line 412, or past the gate using the connection. -/
inductive tphase
  | outside
  | at_gate
  | in_query
deriving DecidableEq, Repr

/-- Thread-interleaving state: the atomic `transaction_in_progress` flag,
whether `transaction_function` holds a thunk, each thread's position in
the executor, and each thread's thread-local `holds_transaction_lock`. -/
structure sys where
  pending : Bool
  txfn : Bool
  phase : Nat → tphase
  holds : Nat → Bool

/-- Initial state: no transaction pending, no thread in the executor,
every thread-local `holds_transaction_lock` is `false` (line 105). -/
def sys_init : sys :=
  ⟨false, false, fun _ => tphase.outside, fun _ => false⟩

/-- One interleaved step of the system.

* `call_query`/`gate_pass`/`gate_spin`/`query_done`: a thread enters
  `db::query`, and the gate loop of lines 412-414 — the loop exits only
  when `transaction_in_progress` is clear or the thread's own
  `holds_transaction_lock` is set, otherwise the iteration sleeps and
  leaves the state unchanged;
* `begin_tx`: `db::transaction` past its line-315 guard stores the thunk
  and sets the pending flag (lines 323-352; the two assignments are taken
  as one step — no claim separates them);
* `tx_pickup`/`tx_thunk_done`/`tx_release`: the consumer thread (thread
  `0`, the only thread running the loop of lines 248-281) finds
  `transaction_in_progress && transaction_function` set, sets its
  thread-local `holds_transaction_lock` (line 276), runs the thunk whose
  last action clears the pending flag (line 342), then clears the
  thread-local flag and the stored thunk (lines 278-279). -/
inductive sys_step : sys → sys → Prop
  | call_query (s : sys) (t : Nat) :
      s.phase t = tphase.outside →
      sys_step s { s with phase := Function.update s.phase t tphase.at_gate }
  | gate_pass (s : sys) (t : Nat) :
      s.phase t = tphase.at_gate →
      (s.pending = false ∨ s.holds t = true) →
      sys_step s { s with phase := Function.update s.phase t tphase.in_query }
  | gate_spin (s : sys) (t : Nat) :
      s.phase t = tphase.at_gate →
      s.pending = true → s.holds t = false →
      sys_step s s
  | query_done (s : sys) (t : Nat) :
      s.phase t = tphase.in_query →
      sys_step s { s with phase := Function.update s.phase t tphase.outside }
  | begin_tx (s : sys) :
      s.pending = false →
      sys_step s { s with pending := true, txfn := true }
  | tx_pickup (s : sys) :
      s.pending = true → s.txfn = true → s.holds 0 = false →
      sys_step s { s with holds := Function.update s.holds 0 true }
  | tx_thunk_done (s : sys) :
      s.holds 0 = true →
      sys_step s { s with pending := false }
  | tx_release (s : sys) :
      s.holds 0 = true →
      sys_step s { s with holds := Function.update s.holds 0 false, txfn := false }

/-- States reachable from `sys_init`. -/
inductive sys_reachable : sys → Prop
  | init : sys_reachable sys_init
  | step {s s' : sys} : sys_reachable s → sys_step s s' → sys_reachable s'

/-- Steps taken while the pending flag is set at their source state. -/
def pending_step (a b : sys) : Prop := sys_step a b ∧ a.pending = true

/-- A (possibly empty) run of steps, each taken while the pending flag is
set. -/
def pending_steps : sys → sys → Prop := Relation.ReflTransGen pending_step

/-! ## Concrete drivers used as failing inputs and witnesses -/

/-- A driver whose `mysql_stmt_prepare` rejects every statement with a
syntax-error message; everything else succeeds vacuously. -/
def drv_prep_fail : Driver where
  ping_ok := true
  reconnect_ok := true
  prepare := fun _ => Except.error "You have an error in your SQL syntax"
  bind_param_ok := fun _ _ => true
  bind_param_error := fun _ => ""
  has_result_metadata := fun _ => true
  metadata_error := fun _ => ""
  field_names := fun _ => []
  stmt_execute := fun _ _ => Except.ok 0
  bind_result_ok := fun _ => true
  bind_result_error := fun _ => ""
  fetches := fun _ _ => []

/-- A driver for a one-placeholder mutating statement: preparing reports
one placeholder; executing with an empty bound-parameter list fails with
the client error that MySQL raises when placeholders are left unbound,
executing with parameters affects one row. -/
def drv_one_param : Driver where
  ping_ok := true
  reconnect_ok := true
  prepare := fun _ => Except.ok 1
  bind_param_ok := fun _ _ => true
  bind_param_error := fun _ => ""
  has_result_metadata := fun _ => true
  metadata_error := fun _ => ""
  field_names := fun _ => ["id"]
  stmt_execute := fun _ ps =>
    if ps.length = 0 then
      Except.error "No data supplied for parameters in prepared statement"
    else Except.ok 1
  bind_result_ok := fun _ => true
  bind_result_error := fun _ => ""
  fetches := fun _ _ => []

/-- A driver for a parameterless DELETE that succeeds affecting five
rows. -/
def drv_delete_five : Driver where
  ping_ok := true
  reconnect_ok := true
  prepare := fun _ => Except.ok 0
  bind_param_ok := fun _ _ => true
  bind_param_error := fun _ => ""
  has_result_metadata := fun _ => true
  metadata_error := fun _ => ""
  field_names := fun _ => []
  stmt_execute := fun _ _ => Except.ok 5
  bind_result_ok := fun _ => true
  bind_result_error := fun _ => ""
  fetches := fun _ _ => []

/-- The state after the first (well-formed) call of the C3 failing
sequence: `query("update t set a = ?", {"x"})` against `drv_one_param`,
which caches the prepared statement. -/
def c3_first : DBState × resultset :=
  db_query drv_one_param DBState.fresh "update t set a = ?"
    [parameter_type.p_string "x"]

/-- The second call of the C3 failing sequence: the same SQL text with an
empty parameter list — zero supplied parameters against one reported
placeholder — hitting the statement cache. -/
def c3_second : DBState × resultset :=
  db_query drv_one_param c3_first.1 "update t set a = ?" []

/-- A driver for a parameterless SELECT over one field whose third fetch
would succeed but whose second fetch fails mid-stream. -/
def drv_mid_fetch_fail : Driver where
  ping_ok := true
  reconnect_ok := true
  prepare := fun _ => Except.ok 0
  bind_param_ok := fun _ _ => true
  bind_param_error := fun _ => ""
  has_result_metadata := fun _ => true
  metadata_error := fun _ => ""
  field_names := fun _ => ["id"]
  stmt_execute := fun _ _ => Except.ok 0
  bind_result_ok := fun _ => true
  bind_result_error := fun _ => ""
  fetches := fun _ _ =>
    [Except.ok [some "1"], Except.error "server has gone away",
     Except.ok [some "2"]]

/-- A driver whose connection is dead and whose reconnect fails: every
call through the executor takes the reconnect-failure path of database.cpp
lines 423-435 and yields the empty result set. -/
def drv_dead : Driver :=
  { drv_delete_five with ping_ok := false, reconnect_ok := false }

/-- A state whose result cache already holds an entry for
`("select 1", {})` expiring at time 5. -/
def c7_witness_state : DBState :=
  { DBState.fresh with
      cached_query_res := [(⟨"select 1", []⟩, ⟨empty_resultset, 5⟩)] }

/-- Interleaving witness state: thread 1 has entered the executor and sits
at the gate. -/
def c2_w1 : sys :=
  { sys_init with phase := Function.update sys_init.phase 1 tphase.at_gate }

/-- ... a transaction has then been armed (pending flag and thunk set). -/
def c2_w2 : sys := { c2_w1 with pending := true, txfn := true }

/-- ... and the consumer thread (thread 0) has picked it up, setting its
thread-local holder flag. -/
def c2_w3 : sys := { c2_w2 with holds := Function.update c2_w2.holds 0 true }

/-! ## Library lemmas about the embedding -/

/-- `db::log_error` never touches the result-set cache. -/
theorem log_error_res_cache (st : DBState) (f e : String) :
    (log_error st f e).cached_query_res = st.cached_query_res := by
  unfold log_error
  dsimp only
  repeat' split
  all_goals rfl

/-- The bind-and-execute stage never touches the result-set cache. -/
theorem db_query_exec_res_cache (drv : Driver) (st : DBState) (f : String)
    (p : paramlist) (cc : cached_query) :
    (db_query_exec drv st f p cc).1.cached_query_res = st.cached_query_res := by
  unfold db_query_exec
  dsimp only
  repeat' split
  all_goals simp [log_error_res_cache]

/-- The executor never touches the result-set cache — only the cached
overload of `db::query` does. -/
theorem db_query_res_cache (drv : Driver) (st : DBState) (f : String)
    (p : paramlist) :
    (db_query drv st f p).1.cached_query_res = st.cached_query_res := by
  unfold db_query
  dsimp only
  repeat' split
  all_goals simp [log_error_res_cache, db_query_exec_res_cache]

/-- The result set produced by the bind-and-execute stage depends only on
the driver, the SQL text, the parameters and the cached statement — not
on the process state it threads through. -/
theorem db_query_exec_result_state (drv : Driver) (f : String) (p : paramlist)
    (cc : cached_query) (st st2 : DBState) :
    (db_query_exec drv st f p cc).2 = (db_query_exec drv st2 f p cc).2 := by
  unfold db_query_exec
  dsimp only
  repeat' split
  all_goals simp_all

/-- The executor's returned result set does not depend on the contents of
the result-set cache. -/
theorem db_query_result_res_cache (drv : Driver) (st : DBState) (f : String)
    (p : paramlist) (m : List (res_key × cached_query_result_set)) :
    (db_query drv { st with cached_query_res := m } f p).2
      = (db_query drv st f p).2 := by
  unfold db_query
  cases hping : drv.ping_ok with
  | false =>
      cases hrec : drv.reconnect_ok with
      | false => simp [hping, hrec]
      | true =>
          simp only [hping, hrec, Bool.false_eq_true, if_false, not_false_iff,
            Bool.not_eq_true, and_false, false_and, if_neg, ite_false, not_true]
          try dsimp only
          repeat' split
          all_goals (try rfl)
          all_goals exact db_query_exec_result_state drv f p _ _ _
  | true =>
      simp only [hping, if_true, ite_true]
      try dsimp only
      repeat' split
      all_goals (try rfl)
      all_goals exact db_query_exec_result_state drv f p _ _ _

/-- `find` after `emplace` on a key absent from the map. -/
theorem assoc_find_append_of_none {α β : Type} [DecidableEq α]
    {l : List (α × β)} {k : α} (v : β) (h : assoc_find l k = none) :
    assoc_find (l ++ [(k, v)]) k = some v := by
  induction l with
  | nil => simp [assoc_find]
  | cons kv rest ih =>
      obtain ⟨k1, v1⟩ := kv
      by_cases hk : k1 = k
      · simp [assoc_find, hk] at h
      · simp only [List.cons_append, assoc_find, hk, if_false, ite_false] at h ⊢
        exact ih h

/-- `find` after `erase` of the same key. -/
theorem assoc_find_erase_self {α β : Type} [DecidableEq α]
    (l : List (α × β)) (k : α) :
    assoc_find (assoc_erase l k) k = none := by
  induction l with
  | nil => rfl
  | cons kv rest ih =>
      obtain ⟨k1, v1⟩ := kv
      by_cases hk : k1 = k
      · simpa [assoc_erase, hk] using ih
      · simpa [assoc_erase, List.filter, hk, assoc_find] using ih

/-- The hit path of the cached overload (database.cpp lines 394-398): an
entry for the key whose expiry lies strictly in the future is returned
as-is, with the whole process state — trace of driver round-trips
included — untouched. -/
theorem db_query_cached_hit (drv : Driver) (st : DBState) (now : Rat)
    (f : String) (p : paramlist) (lifetime : Rat)
    (entry : cached_query_result_set)
    (hfind : assoc_find st.cached_query_res ⟨f, p⟩ = some entry)
    (hfresh : now < entry.expiry) :
    db_query_cached drv st now f p lifetime = (st, entry.results) := by
  unfold db_query_cached
  dsimp only
  rw [hfind]
  simp [hfresh]

/-- The store path of the cached overload (database.cpp lines 399-403):
with no entry, or only a stale one, the executor's result is returned and
stored under the key with expiry `now + lifetime` (the stale entry having
been erased first). -/
theorem db_query_cached_store (drv : Driver) (st : DBState) (now : Rat)
    (f : String) (p : paramlist) (lifetime : Rat)
    (hstale : ∀ entry, assoc_find st.cached_query_res ⟨f, p⟩ = some entry →
        entry.expiry ≤ now) :
    (db_query_cached drv st now f p lifetime).2 = (db_query drv st f p).2
    ∧ assoc_find (db_query_cached drv st now f p lifetime).1.cached_query_res
        ⟨f, p⟩ = some ⟨(db_query drv st f p).2, now + lifetime⟩ := by
  unfold db_query_cached
  dsimp only
  cases hfind : assoc_find st.cached_query_res ⟨f, p⟩ with
  | none =>
      constructor
      · simp only [hfind]
      · simp only [hfind]
        have hpres := db_query_res_cache drv st f p
        rw [hpres]
        exact assoc_find_append_of_none _ hfind
  | some entry =>
      have hnotlt : ¬ now < entry.expiry := not_lt.mpr (hstale entry hfind)
      simp only [hfind, hnotlt, if_false, ite_false]
      have hres := db_query_result_res_cache drv st f p
        (assoc_erase st.cached_query_res ⟨f, p⟩)
      refine ⟨hres, ?_⟩
      have hpres := db_query_res_cache drv
        { st with cached_query_res := assoc_erase st.cached_query_res ⟨f, p⟩ } f p
      try dsimp only
      rw [hpres, hres]
      exact assoc_find_append_of_none _ (assoc_find_erase_self _ _)

/-- The fetch loop stops at the first failing fetch, keeping every row
fetched before it and reporting that first error. -/
theorem fetch_loop_until_error (fields : List String)
    (good : List (List (Option String))) (e : String)
    (rest : List (Except String (List (Option String))))
    (hf : fields ≠ []) :
    fetch_loop fields (good.map Except.ok ++ Except.error e :: rest)
      = (good.map (build_row fields), some e) := by
  induction good with
  | nil => simp [fetch_loop]
  | cons g gs ih =>
      have hlen : fields.length ≠ 0 := by simpa using hf
      simp only [List.map_cons, List.cons_append, fetch_loop, ih, hlen]
      simp [ih, hf]

/-- Invariant of the interleaving model: only the consumer thread
(thread 0) ever has its thread-local `holds_transaction_lock` set — the
flag is only ever assigned inside the consumer loop body (database.cpp
lines 276-278). -/
theorem sys_holder_is_consumer {s : sys} (h : sys_reachable s) :
    ∀ t, s.holds t = true → t = 0 := by
  induction h with
  | init => intro t ht; simp [sys_init] at ht
  | step hr hs ih =>
      cases hs with
      | call_query t hp => intro u hu; exact ih u hu
      | gate_pass t hp hc => intro u hu; exact ih u hu
      | gate_spin t hp hpend hh => intro u hu; exact ih u hu
      | query_done t hp => intro u hu; exact ih u hu
      | begin_tx hp => intro u hu; exact ih u hu
      | tx_pickup hp htx hh =>
          intro u hu
          dsimp only at hu
          by_cases hu0 : u = 0
          · exact hu0
          · rw [Function.update_noteq hu0] at hu
            exact ih u hu
      | tx_thunk_done hh => intro u hu; exact ih u hu
      | tx_release hh =>
          intro u hu
          dsimp only at hu
          by_cases hu0 : u = 0
          · exact hu0
          · rw [Function.update_noteq hu0] at hu
            exact ih u hu

/-- No single step lets a non-holding thread leave the gate while the
pending flag is set: the loop condition of line 412 keeps it spinning. -/
theorem sys_gate_blocked_step {s s2 : sys} {t : Nat}
    (hpend : s.pending = true) (hh : s.holds t = false)
    (hg : s.phase t = tphase.at_gate) (hs : sys_step s s2) :
    s2.phase t = tphase.at_gate := by
  cases hs with
  | call_query u hp =>
      dsimp only
      by_cases hu : t = u
      · rw [← hu] at hp; rw [hp] at hg; exact absurd hg (by simp)
      · rw [Function.update_noteq hu]; exact hg
  | gate_pass u hp hc =>
      dsimp only
      by_cases hu : t = u
      · rw [← hu] at hc
        rcases hc with hc | hc
        · rw [hpend] at hc; exact absurd hc (by simp)
        · rw [hh] at hc; exact absurd hc (by simp)
      · rw [Function.update_noteq hu]; exact hg
  | gate_spin u hp hpend2 hh2 => exact hg
  | query_done u hp =>
      dsimp only
      by_cases hu : t = u
      · rw [← hu] at hp; rw [hp] at hg; exact absurd hg (by simp)
      · rw [Function.update_noteq hu]; exact hg
  | begin_tx hp => exact hg
  | tx_pickup hp htx hh2 => exact hg
  | tx_thunk_done hh2 => exact hg
  | tx_release hh2 => exact hg

/-- Along any run of steps each taken while the pending flag is set, a
thread other than the consumer that sits at the gate stays at the gate
(and reachability is preserved). -/
theorem sys_gate_blocked_run {s s2 : sys} {t : Nat}
    (hr : sys_reachable s) (ht : t ≠ 0)
    (hg : s.phase t = tphase.at_gate) (hps : pending_steps s s2) :
    s2.phase t = tphase.at_gate ∧ sys_reachable s2 := by
  have hps2 : Relation.ReflTransGen pending_step s s2 := hps
  clear hps
  induction hps2 with
  | refl => exact ⟨hg, hr⟩
  | @tail b c hab hbc ih =>
      obtain ⟨hgb, hrb⟩ := ih
      obtain ⟨hstep, hpend⟩ := hbc
      have hhb : b.holds t = false := by
        cases hcase : b.holds t with
        | false => rfl
        | true => exact absurd (sys_holder_is_consumer hrb t hcase) ht
      exact ⟨sys_gate_blocked_step hpend hhb hgb hstep,
        sys_reachable.step hrb hstep⟩

/-! ## Claims -/

/-- **C1** (code_bug evidence).  The spec says every executor failure is
observable through the returned resultset's non-empty `error` field.  The
code routes every failure message into the global `last_error`
(`db::log_error`) and never assigns the returned `resultset`'s `error`
member: at the concrete failing input — a preparation failure on
`"selec * from t"` — the returned resultset's `error` is empty and its
`ok()` reports success, while the global `last_error` carries the
human-readable message. -/
theorem c1_failure_unobservable_in_resultset :
    (db_query drv_prep_fail DBState.fresh "selec * from t" []).2.error = ""
    ∧ (db_query drv_prep_fail DBState.fresh "selec * from t" []).2.ok = true
    ∧ (db_query drv_prep_fail DBState.fresh "selec * from t" []).1.last_error
        = "You have an error in your SQL syntax (query: selec * from t)"
    ∧ (db_query drv_prep_fail DBState.fresh "selec * from t" []).2.rows = [] :=
  ⟨rfl, rfl, rfl, rfl⟩

/-- **C3** (code_bug evidence).  The parameter-count check of database.cpp
lines 468-474 lives inside the cache-miss branch only.  At the concrete
failing sequence — a first call `query("update t set a = ?", {"x"})` that
caches the statement, then `query("update t set a = ?", {})` with zero
parameters against the cached handle's one placeholder — the second call
performs no count check, issues the driver execute round-trip anyway, and
returns a resultset whose `error` field is empty (the driver's complaint
lands only in the global `last_error`). -/
theorem c3_mismatch_executes_on_cache_hit :
    assoc_find c3_first.1.cached_queries "update t set a = ?" = some ⟨false, 1⟩
    ∧ c3_second.1.trace
        = c3_first.1.trace ++ [drv_event.execute "update t set a = ?"]
    ∧ c3_second.2.error = "" ∧ c3_second.2.rows = []
    ∧ c3_second.1.last_error
        = "No data supplied for parameters in prepared statement (query: update t set a = ?)" :=
  ⟨rfl, rfl, rfl, rfl, rfl⟩

/-- **C4**.  The transaction wrapper thunk starts with `START
TRANSACTION`, issues `COMMIT` exactly when the closure returns `true` and
`ROLLBACK` exactly when it returns `false`, throws, or is absent; on
every run exactly one of `COMMIT`/`ROLLBACK` is issued, and the pending
flag is clear after the thunk. -/
theorem c4_commit_iff_closure_true (closure : tx_closure) :
    (transaction_function_run closure).1.head? = some tx_stmt.start
    ∧ (tx_stmt.commit ∈ (transaction_function_run closure).1
        ↔ closure = some (Except.ok true))
    ∧ (tx_stmt.rollback ∈ (transaction_function_run closure).1
        ↔ closure ≠ some (Except.ok true))
    ∧ (transaction_function_run closure).1.count tx_stmt.commit
        + (transaction_function_run closure).1.count tx_stmt.rollback = 1
    ∧ (transaction_function_run closure).2 = false := by
  cases closure with
  | none => decide
  | some c =>
      cases c with
      | error u => cases u; decide
      | ok b => cases b <;> decide

/-- **C5** (counterexample).  The claim: dequeuing an entry with empty
SQL text performs no query but still fires its callback.  At the concrete
entry `("", {}, callback present)` the consumer loop body skips the whole
`if (!qr.format.empty())` block of lines 261-266, so the callback does
not fire — refuting the conjunction `no query ∧ callback fires`. -/
theorem c5_counterexample :
    ¬ ((consume_entry ⟨"", [], true⟩).1 = false
        ∧ (consume_entry ⟨"", [], true⟩).2 = true) := by
  decide

/-- **C5** (amended).  When the consumer dequeues an entry whose SQL text
is the empty string it performs no query and does not invoke the entry's
callback either: callbacks fire only for entries with non-empty SQL
text. -/
theorem c5_sentinel_skips_query_and_callback (e : queue_entry)
    (h : e.format = "") :
    consume_entry e = (false, false) := by
  simp [consume_entry, h]

/-- Witness for the amended C5 at the sentinel the transaction
coordinator enqueues: empty SQL text with a (no-op) callback present. -/
theorem c5_witness : consume_entry ⟨"", [], true⟩ = (false, false) :=
  c5_sentinel_skips_query_and_callback ⟨"", [], true⟩ rfl

/-- **C6** (code_bug evidence).  The spec says a successful row-less
statement's affected-row count is readable from the returned resultset's
`affected_rows` field.  The code stores `mysql_stmt_affected_rows` only in
the global `rows_affected` (line 536) and never assigns the returned
resultset's field: at the concrete input — a DELETE affecting five rows —
the global reads `5` while the returned resultset's `affected_rows` is
`0`. -/
theorem c6_affected_rows_only_global :
    (db_query drv_delete_five DBState.fresh "delete from t" []).1.rows_affected = 5
    ∧ (db_query drv_delete_five DBState.fresh "delete from t" []).2.affected_rows = 0 :=
  ⟨rfl, rfl⟩

/-- **C8**.  Calling `db::transaction` while a transaction is already
pending throws `std::runtime_error("Transaction already in progress")`
synchronously, before any mutation: the pending flag, the stored thunk
and the queue are returned unchanged. -/
theorem c8_second_transaction_rejected (st : coord_state)
    (closure : tx_closure) (h : st.transaction_in_progress = true) :
    db_transaction st closure = (st, some "Transaction already in progress") := by
  simp [db_transaction, h]

/-- Witness for C8 at a concrete pending coordinator state. -/
theorem c8_witness :
    db_transaction ⟨true, none, []⟩ none
      = (⟨true, none, []⟩, some "Transaction already in progress") :=
  c8_second_transaction_rejected ⟨true, none, []⟩ none rfl

/-- **C2**.  In the interleaving model of the transaction gate:
(1) at most one thread ever has the thread-local holder flag set in any
reachable state (indeed it can only be the consumer thread), and
(2) along any run of steps taken while the pending flag is set, a call
into the executor by any non-consumer thread that has reached the entry
gate stays at the gate — it cannot proceed to the connection until the
pending flag clears. -/
theorem c2_single_holder_and_gate :
    (∀ s, sys_reachable s → ∀ t1 t2, s.holds t1 = true → s.holds t2 = true →
        t1 = t2)
    ∧ (∀ s t, sys_reachable s → t ≠ 0 → s.phase t = tphase.at_gate →
        ∀ s2, pending_steps s s2 → s2.phase t = tphase.at_gate) := by
  constructor
  · intro s hr t1 t2 h1 h2
    rw [sys_holder_is_consumer hr t1 h1, sys_holder_is_consumer hr t2 h2]
  · intro s t hr ht hg s2 hps
    exact (sys_gate_blocked_run hr ht hg hps).1

/-- Witness for C2 at the concrete reachable state `c2_w3` (thread 1 at
the gate, transaction pending, consumer holding), with a one-iteration
spin of thread 1's gate loop as the pending-steps run. -/
theorem c2_witness :
    (0 : Nat) = 0 ∧ c2_w3.phase 1 = tphase.at_gate := by
  have h1 : sys_step sys_init c2_w1 := by
    unfold c2_w1
    exact sys_step.call_query sys_init 1 rfl
  have h2 : sys_step c2_w1 c2_w2 := by
    unfold c2_w2
    exact sys_step.begin_tx c2_w1 rfl
  have h3 : sys_step c2_w2 c2_w3 := by
    unfold c2_w3
    exact sys_step.tx_pickup c2_w2 rfl rfl rfl
  have hr : sys_reachable c2_w3 :=
    sys_reachable.step
      (sys_reachable.step (sys_reachable.step sys_reachable.init h1) h2) h3
  have hphase : c2_w3.phase 1 = tphase.at_gate := by
    simp [c2_w3, c2_w2, c2_w1, sys_init, Function.update]
  have hspin : sys_step c2_w3 c2_w3 := by
    refine sys_step.gate_spin c2_w3 1 hphase rfl ?_
    simp [c2_w3, c2_w2, c2_w1, sys_init, Function.update]
  have hps : pending_steps c2_w3 c2_w3 :=
    Relation.ReflTransGen.tail Relation.ReflTransGen.refl ⟨hspin, rfl⟩
  constructor
  · exact c2_single_holder_and_gate.1 c2_w3 hr 0 0
      (by simp [c2_w3, c2_w2, c2_w1, sys_init, Function.update])
      (by simp [c2_w3, c2_w2, c2_w1, sys_init, Function.update])
  · exact c2_single_holder_and_gate.2 c2_w3 1 hr (by decide) hphase c2_w3 hps

/-- **C7**.  The time-bounded cached overload: (i) an entry for the exact
`(sql, parameters)` key whose stored expiry lies strictly in the future is
returned unchanged with the entire process state (driver trace included)
untouched; (ii) otherwise the executor re-runs, its fresh result is
returned and stored under the key with expiry `now + lifetime`, replacing
any stale entry; (iii) hence a second call within the lifetime of the
first call's store returns the identical result set and leaves the state
unchanged — zero driver round-trips. -/
theorem c7_result_cache_ttl (drv : Driver) (st : DBState)
    (now t1 lifetime : Rat) (format : String) (parameters : paramlist) :
    (∀ entry, assoc_find st.cached_query_res ⟨format, parameters⟩ = some entry →
        now < entry.expiry →
        db_query_cached drv st now format parameters lifetime
          = (st, entry.results))
    ∧ ((∀ entry, assoc_find st.cached_query_res ⟨format, parameters⟩ = some entry →
          entry.expiry ≤ now) →
        (db_query_cached drv st now format parameters lifetime).2
            = (db_query drv st format parameters).2
        ∧ assoc_find
            (db_query_cached drv st now format parameters lifetime).1.cached_query_res
            ⟨format, parameters⟩
          = some ⟨(db_query drv st format parameters).2, now + lifetime⟩)
    ∧ ((∀ entry, assoc_find st.cached_query_res ⟨format, parameters⟩ = some entry →
          entry.expiry ≤ now) →
        t1 < now + lifetime →
        db_query_cached drv
            (db_query_cached drv st now format parameters lifetime).1
            t1 format parameters lifetime
          = ((db_query_cached drv st now format parameters lifetime).1,
             (db_query_cached drv st now format parameters lifetime).2)) := by
  refine ⟨?_, ?_, ?_⟩
  · intro entry hfind hfresh
    exact db_query_cached_hit drv st now format parameters lifetime entry hfind hfresh
  · intro hstale
    exact db_query_cached_store drv st now format parameters lifetime hstale
  · intro hstale ht
    obtain ⟨h2, hstore⟩ :=
      db_query_cached_store drv st now format parameters lifetime hstale
    have hhit := db_query_cached_hit drv
      (db_query_cached drv st now format parameters lifetime).1 t1 format parameters
      lifetime ⟨(db_query drv st format parameters).2, now + lifetime⟩ hstore ht
    rw [hhit, h2]

/-- Witness for C7: a fresh hit on a pre-populated cache entry, and a
store-then-hit pair of consecutive calls on an empty cache. -/
theorem c7_witness :
    db_query_cached drv_delete_five c7_witness_state 0 "select 1" [] 10
      = (c7_witness_state, empty_resultset)
    ∧ db_query_cached drv_delete_five
        (db_query_cached drv_delete_five DBState.fresh 0 "select 0" [] 2).1 1
        "select 0" [] 2
      = ((db_query_cached drv_delete_five DBState.fresh 0 "select 0" [] 2).1,
         (db_query_cached drv_delete_five DBState.fresh 0 "select 0" [] 2).2) := by
  constructor
  · exact (c7_result_cache_ttl drv_delete_five c7_witness_state 0 1 10
      "select 1" []).1 ⟨empty_resultset, 5⟩ rfl (by norm_num)
  · exact (c7_result_cache_ttl drv_delete_five DBState.fresh 0 1 2
      "select 0" []).2.2
      (fun e h => by simp [DBState.fresh, assoc_find] at h) (by norm_num)

/-- **C9**.  The cached overload treats failures exactly like successes:
when the underlying execution fails (here: dead connection whose
reconnect also fails, yielding the empty result set), that failed result
is still stored under the `(sql, parameters)` key with expiry
`now + lifetime`, and a later call within the lifetime returns the stored
failed result with the state — hence the driver trace — unchanged. -/
theorem c9_failures_cached_like_successes (drv : Driver) (st : DBState)
    (now t1 lifetime : Rat) (format : String) (parameters : paramlist)
    (hping : drv.ping_ok = false) (hrec : drv.reconnect_ok = false)
    (hstale : ∀ entry,
        assoc_find st.cached_query_res ⟨format, parameters⟩ = some entry →
        entry.expiry ≤ now)
    (ht : t1 < now + lifetime) :
    (db_query_cached drv st now format parameters lifetime).2 = empty_resultset
    ∧ assoc_find
        (db_query_cached drv st now format parameters lifetime).1.cached_query_res
        ⟨format, parameters⟩ = some ⟨empty_resultset, now + lifetime⟩
    ∧ db_query_cached drv
        (db_query_cached drv st now format parameters lifetime).1
        t1 format parameters lifetime
      = ((db_query_cached drv st now format parameters lifetime).1,
         empty_resultset) := by
  have hdead : (db_query drv st format parameters).2 = empty_resultset := by
    unfold db_query
    simp [hping, hrec]
  obtain ⟨h2, hstore⟩ :=
    db_query_cached_store drv st now format parameters lifetime hstale
  rw [hdead] at h2 hstore
  refine ⟨h2, hstore, ?_⟩
  exact db_query_cached_hit drv
    (db_query_cached drv st now format parameters lifetime).1 t1 format parameters
    lifetime ⟨empty_resultset, now + lifetime⟩ hstore ht

/-- Witness for C9 at the dead-connection driver. -/
theorem c9_witness :
    (db_query_cached drv_dead DBState.fresh 0 "select 1" [] 3).2 = empty_resultset
    ∧ assoc_find
        (db_query_cached drv_dead DBState.fresh 0 "select 1" [] 3).1.cached_query_res
        ⟨"select 1", []⟩ = some ⟨empty_resultset, 0 + 3⟩
    ∧ db_query_cached drv_dead
        (db_query_cached drv_dead DBState.fresh 0 "select 1" [] 3).1
        1 "select 1" [] 3
      = ((db_query_cached drv_dead DBState.fresh 0 "select 1" [] 3).1,
         empty_resultset) :=
  c9_failures_cached_like_successes drv_dead DBState.fresh 0 1 3 "select 1" []
    rfl rfl (fun e h => by simp [DBState.fresh, assoc_find] at h) (by norm_num)

/-- **C10**.  When a fetch fails mid-stream while materialising a
row-yielding statement, the rows fetched before the failing fetch are
kept and returned to the caller, fetching stops at the first error, and
the error message is logged (to the global `last_error`, per C1). -/
theorem c10_partial_rows_returned (drv : Driver) (st : DBState) (format : String)
    (good : List (List (Option String))) (e : String)
    (rest : List (Except String (List (Option String))))
    (hping : drv.ping_ok = true)
    (hmiss : assoc_find st.cached_queries format = none)
    (hprep : drv.prepare format = Except.ok 0)
    (hexp : expects_results_of format = true)
    (hmeta : drv.has_result_metadata format = true)
    (hbind : drv.bind_result_ok format = true)
    (hexec : drv.stmt_execute format [] = Except.ok 0)
    (hfields : drv.field_names format ≠ [])
    (hfetch : drv.fetches format []
        = good.map Except.ok ++ Except.error e :: rest) :
    (db_query drv st format []).2.rows
        = good.map (build_row (drv.field_names format))
    ∧ (db_query drv st format []).1.last_error
        = e ++ " (query: " ++ format ++ ")" := by
  have hne : format ≠ "" := by
    intro h
    rw [h] at hexp
    exact absurd hexp (by decide)
  unfold db_query db_query_exec
  simp only [hping, hmiss, hprep, hexp, hmeta, hbind, hexec, hfetch,
    fetch_loop_until_error (drv.field_names format) good e rest hfields]
  simp only [if_true, ite_true]
  try dsimp only
  by_cases he : e = "Lost connection to MySQL server during query" <;>
    simp [log_error, hne, he, hexp, hmiss, hprep, hexec, hfetch,
      fetch_loop_until_error (drv.field_names format) good e rest hfields]

/-- Witness for C10: one row fetched, then a mid-fetch failure, then a row
that is never reached. -/
theorem c10_witness :
    (db_query drv_mid_fetch_fail DBState.fresh "select id from t" []).2.rows
        = [[some "1"]].map (build_row (drv_mid_fetch_fail.field_names "select id from t"))
    ∧ (db_query drv_mid_fetch_fail DBState.fresh "select id from t" []).1.last_error
        = "server has gone away" ++ " (query: " ++ "select id from t" ++ ")" :=
  c10_partial_rows_returned drv_mid_fetch_fail DBState.fresh "select id from t"
    [[some "1"]] "server has gone away" [Except.ok [some "2"]]
    rfl rfl rfl (by decide) rfl rfl rfl (by decide) rfl

end DppMysql
